import Mathlib

/-!
Verification of the gemini-greeter web demo (src/app.py).

The program is a single-route Flask app: it reads an API key from the
environment, builds a client for a remote generation service, performs one
grounded query through `call_gemini_with_backoff` (a retry loop with
exponential backoff), and renders the answer plus cited sources as HTML.

Shallow embedding choices:
* The remote call `client.models.generate_content(...)` is abstracted as a
  function `call : Nat → Except String GeminiResponse` giving, for each
  0-based attempt index, either a raised exception (`Except.error msg`,
  Python `except Exception as e`) or a returned response (`Except.ok`).
* Side effects that the claims observe — call attempts, `time.sleep`
  durations, and construction of the `genai.Client` handle — are recorded
  in an explicit event trace, in program order.
* Flask returns HTTP 200 for a handler that returns a plain string; the
  handler model records that status explicitly.
* `render_template_string` on the templates occurring in this file is the
  identity: none of them contains a Jinja directive.  (An exception
  message that itself contained Jinja syntax would be interpreted by
  Jinja; that is outside this model.)
* Python truthiness on the values that occur here: a string is falsy iff
  empty, a list is falsy iff empty, an optional object is falsy iff
  absent.
-/

/-- A `web` record on a grounding attribution: `attr.web.uri` and
`attr.web.title`.  The SDK may return `None` for either field; a missing
field is modelled as the empty string, which is exactly what the Python
truthiness test `attr.web.uri and attr.web.title` rejects. -/
structure Web where
  uri : String
  title : String
deriving Repr, DecidableEq

/-- One grounding attribution; its `web` field may be absent. -/
structure GroundingAttribution where
  web : Option Web
deriving Repr, DecidableEq

/-- `candidate.grounding_metadata.grounding_attributions` (a list, possibly
empty). -/
structure GroundingMetadata where
  grounding_attributions : List GroundingAttribution
deriving Repr, DecidableEq

/-- One response candidate; its grounding metadata may be absent. -/
structure Candidate where
  grounding_metadata : Option GroundingMetadata
deriving Repr, DecidableEq

/-- The response object returned by `generate_content`: `response.text`
and `response.candidates`. -/
structure GeminiResponse where
  text : String
  candidates : List Candidate
deriving Repr, DecidableEq

/-- A citation dict built at src/app.py line 99: `{'uri': ..., 'title': ...}`. -/
structure Source where
  uri : String
  title : String
deriving Repr, DecidableEq

/-- Observable side effects of the handler, in program order:
construction of the `genai.Client` handle, one API call attempt
(0-based index, printed 1-based), and one `time.sleep` of the given
number of seconds. -/
inductive Event where
  | clientInit : Event
  | callAttempt (attempt : Nat) : Event
  | sleep (seconds : Nat) : Event
deriving Repr, DecidableEq

/-- `MODEL_NAME` at src/app.py line 10. -/
def MODEL_NAME : String := "gemini-2.5-flash-preview-09-2025"

/-- Python `range(n)` for an `int` argument: `[0, ..., n-1]`, empty when
`n ≤ 0`. -/
def pythonRange (n : Int) : List Nat := List.range n.toNat

/-- The body of the `for attempt in range(max_retries)` loop of
`call_gemini_with_backoff` (src/app.py lines 16-40), iterating over the
remaining attempt indices.  On `Except.ok` the response is returned at
once (line 31); on `Except.error`, if `attempt < max_retries - 1` the
function sleeps `2 ** attempt` seconds (lines 34-37) and continues,
otherwise it returns `None` (line 39).  Falling off the loop returns
`None` (line 40). -/
def backoffLoop (call : Nat → Except String GeminiResponse) (max_retries : Int) :
    List Nat → List Event × Option GeminiResponse
  | [] => ([], none)
  | attempt :: rest =>
    match call attempt with
    | Except.ok response => ([Event.callAttempt attempt], some response)
    | Except.error _ =>
      if (attempt : Int) < max_retries - 1 then
        let r := backoffLoop call max_retries rest
        (Event.callAttempt attempt :: Event.sleep (2 ^ attempt) :: r.1, r.2)
      else
        ([Event.callAttempt attempt], none)

/-- `call_gemini_with_backoff` (src/app.py lines 14-40): returns the
event trace together with the Python return value (`some response` or
`None`).  The Python default for `max_retries` is 5; `home` calls it
with that default. -/
def call_gemini_with_backoff (call : Nat → Except String GeminiResponse)
    (max_retries : Int) : List Event × Option GeminiResponse :=
  backoffLoop call max_retries (pythonRange max_retries)

/-- Whether an event is a call attempt. -/
def isCallAttempt : Event → Bool
  | Event.callAttempt _ => true
  | _ => false

/-- Number of call attempts recorded in a trace. -/
def attemptCount (events : List Event) : Nat :=
  (events.filter isCallAttempt).length

/-- The sleep durations recorded in a trace, in order. -/
def sleepDurations (events : List Event) : List Nat :=
  events.filterMap fun e =>
    match e with
    | Event.sleep s => some s
    | _ => none

@[simp] lemma attemptCount_nil : attemptCount [] = 0 := rfl

@[simp] lemma attemptCount_cons_call (i : Nat) (l : List Event) :
    attemptCount (Event.callAttempt i :: l) = attemptCount l + 1 := by
  simp [attemptCount, isCallAttempt, List.length_cons]

@[simp] lemma attemptCount_cons_sleep (s : Nat) (l : List Event) :
    attemptCount (Event.sleep s :: l) = attemptCount l := by
  simp [attemptCount, isCallAttempt]

@[simp] lemma attemptCount_cons_clientInit (l : List Event) :
    attemptCount (Event.clientInit :: l) = attemptCount l := by
  simp [attemptCount, isCallAttempt]

@[simp] lemma sleepDurations_nil : sleepDurations [] = [] := rfl

@[simp] lemma sleepDurations_cons_call (i : Nat) (l : List Event) :
    sleepDurations (Event.callAttempt i :: l) = sleepDurations l := by
  simp [sleepDurations]

@[simp] lemma sleepDurations_cons_sleep (s : Nat) (l : List Event) :
    sleepDurations (Event.sleep s :: l) = s :: sleepDurations l := by
  simp [sleepDurations]

/-- The loop result is `none` or a response actually returned by one of
the attempted calls. -/
lemma backoffLoop_result (call : Nat → Except String GeminiResponse)
    (m : Int) (l : List Nat) :
    (backoffLoop call m l).2 = none ∨
      ∃ i r, i ∈ l ∧ call i = Except.ok r ∧ (backoffLoop call m l).2 = some r := by
  induction l with
  | nil => left; rfl
  | cons a rest ih =>
    cases hc : call a with
    | ok r =>
      right
      exact ⟨a, r, List.mem_cons_self a rest, hc, by simp [backoffLoop, hc]⟩
    | error e =>
      by_cases hg : (a : Int) < m - 1
      · rcases ih with h | ⟨i, r, hi, hcall, hres⟩
        · left; simpa [backoffLoop, hc, hg] using h
        · right
          exact ⟨i, r, List.mem_cons_of_mem a hi, hcall,
            by simpa [backoffLoop, hc, hg] using hres⟩
      · left; simp [backoffLoop, hc, hg]

/-- C9: `call_gemini_with_backoff` never propagates an exception: for
every behavior of the underlying call and every `max_retries` value it
terminates (it is a total function of this model) and returns either
`None` or a response returned unmodified by one of its call attempts. -/
theorem backoff_total_no_exception (call : Nat → Except String GeminiResponse)
    (max_retries : Int) :
    (call_gemini_with_backoff call max_retries).2 = none ∨
      ∃ i r, call i = Except.ok r ∧
        (call_gemini_with_backoff call max_retries).2 = some r := by
  rcases backoffLoop_result call max_retries (pythonRange max_retries) with
    h | ⟨i, r, _, hcall, hres⟩
  · exact Or.inl h
  · exact Or.inr ⟨i, r, hcall, hres⟩

/-- C10: for `max_retries ≤ 0` the loop body never runs: the function
returns `None` immediately, with zero call attempts and zero sleeps. -/
theorem backoff_nonpositive (call : Nat → Except String GeminiResponse)
    (max_retries : Int) (h : max_retries ≤ 0) :
    call_gemini_with_backoff call max_retries = ([], none) := by
  unfold call_gemini_with_backoff pythonRange
  rw [Int.toNat_of_nonpos h]
  rfl

/-- Witness for C10 at `max_retries = -2`: zero attempts, zero sleeps,
result `None`. -/
theorem backoff_nonpositive_witness :
    call_gemini_with_backoff (fun _ => Except.error "down") (-2) = ([], none) :=
  backoff_nonpositive (fun _ => Except.error "down") (-2) (by decide)


lemma backoffLoop_cons_ok (call : Nat → Except String GeminiResponse)
    (m : Int) (a : Nat) (rest : List Nat) (r : GeminiResponse)
    (h : call a = Except.ok r) :
    backoffLoop call m (a :: rest) = ([Event.callAttempt a], some r) := by
  rw [backoffLoop, h]

lemma backoffLoop_cons_error (call : Nat → Except String GeminiResponse)
    (m : Int) (a : Nat) (rest : List Nat) (e : String)
    (h : call a = Except.error e) :
    backoffLoop call m (a :: rest) =
      if (a : Int) < m - 1 then
        (Event.callAttempt a :: Event.sleep (2 ^ a) :: (backoffLoop call m rest).1,
          (backoffLoop call m rest).2)
      else ([Event.callAttempt a], none) := by
  rw [backoffLoop, h]

/-- The event trace of a run whose every attempt raises, starting at
attempt index `a` with `k` attempts remaining: each failing attempt but
the last is followed by a sleep of `2 ^ attempt` seconds. -/
def failAux (a : Nat) : Nat → List Event
  | 0 => []
  | 1 => [Event.callAttempt a]
  | k + 2 => Event.callAttempt a :: Event.sleep (2 ^ a) :: failAux (a + 1) (k + 1)

lemma failAux_succ2 (a m : Nat) :
    failAux a (m + 2) =
      Event.callAttempt a :: Event.sleep (2 ^ a) :: failAux (a + 1) (m + 1) := by
  rw [failAux]

/-- The trace the spec describes for `n` permanently failing attempts:
attempt `i` for `i = 0, ..., n-1`, with a sleep of `2 ^ i` seconds after
every attempt except the last. -/
def specFailTrace (n : Nat) : List Event :=
  (List.range n).flatMap fun i =>
    if i + 1 < n then [Event.callAttempt i, Event.sleep (2 ^ i)]
    else [Event.callAttempt i]

lemma backoffLoop_allFail (call : Nat → Except String GeminiResponse)
    (hfail : ∀ i, ∃ e, call i = Except.error e) :
    ∀ (k a : Nat) (n : Int), (a : Int) + k = n →
      backoffLoop call n (List.range' a k) = (failAux a k, none) := by
  intro k
  induction k using Nat.strong_induction_on with
  | _ k ih =>
    match k with
    | 0 => intro a n _; rfl
    | 1 =>
      intro a n hn
      obtain ⟨e, he⟩ := hfail a
      have hg : ¬ ((a : Int) < n - 1) := by omega
      rw [List.range'_succ, backoffLoop_cons_error call n a _ e he, if_neg hg]
      rfl
    | m + 2 =>
      intro a n hn
      obtain ⟨e, he⟩ := hfail a
      have hg : (a : Int) < n - 1 := by omega
      have hrec := ih (m + 1) (by omega) (a + 1) n (by push_cast; omega)
      rw [List.range'_succ, backoffLoop_cons_error call n a _ e he, if_pos hg,
        hrec, failAux_succ2]

lemma failAux_attemptCount : ∀ (k a : Nat), attemptCount (failAux a k) = k := by
  intro k
  induction k using Nat.strong_induction_on with
  | _ k ih =>
    match k with
    | 0 => intro a; rfl
    | 1 => intro a; rfl
    | m + 2 =>
      intro a
      rw [failAux_succ2, attemptCount_cons_call, attemptCount_cons_sleep,
        ih (m + 1) (by omega) (a + 1)]

lemma failAux_sleepDurations :
    ∀ (k a : Nat), sleepDurations (failAux a (k + 1)) =
      (List.range' a k).map fun i => 2 ^ i := by
  intro k
  induction k with
  | zero => intro a; rfl
  | succ k ih =>
    intro a
    rw [List.range'_succ, failAux_succ2, sleepDurations_cons_call,
      sleepDurations_cons_sleep, List.map_cons, ih (a + 1)]

lemma failAux_eq_specFailTrace :
    ∀ (k a n : Nat), a + k = n →
      failAux a k = (List.range' a k).flatMap fun i =>
        if i + 1 < n then [Event.callAttempt i, Event.sleep (2 ^ i)]
        else [Event.callAttempt i] := by
  intro k
  induction k using Nat.strong_induction_on with
  | _ k ih =>
    match k with
    | 0 => intro a n _; rfl
    | 1 =>
      intro a n hn
      have h1 : ¬ (a + 1 < n) := by omega
      rw [List.range'_succ, List.flatMap_cons, if_neg h1]
      rfl
    | m + 2 =>
      intro a n hn
      have h1 : a + 1 < n := by omega
      rw [failAux_succ2, List.range'_succ, List.flatMap_cons, if_pos h1,
        ih (m + 1) (by omega) (a + 1) n (by omega)]
      rfl

/-- C1: when every call raises, `call_gemini_with_backoff` with a
positive `max_retries = n` performs exactly `n` attempts, returns `None`,
and its trace is exactly attempt 0, sleep 1, attempt 1, sleep 2, ...,
attempt `n-1` — sleeps of `2^0, ..., 2^(n-2)` seconds between consecutive
attempts and no sleep after the final attempt. -/
theorem backoff_allFail (n : Nat) (hn : 0 < n)
    (call : Nat → Except String GeminiResponse)
    (hfail : ∀ i, ∃ e, call i = Except.error e) :
    (call_gemini_with_backoff call n).2 = none ∧
    attemptCount (call_gemini_with_backoff call n).1 = n ∧
    sleepDurations (call_gemini_with_backoff call n).1 =
      (List.range (n - 1)).map (fun i => 2 ^ i) ∧
    (call_gemini_with_backoff call n).1 = specFailTrace n := by
  have hrange : pythonRange (n : Int) = List.range' 0 n := by
    simp [pythonRange, List.range_eq_range']
  have hloop := backoffLoop_allFail call hfail n 0 (n : Int) (by push_cast; omega)
  have hmain : call_gemini_with_backoff call (n : Int) = (failAux 0 n, none) := by
    rw [call_gemini_with_backoff, hrange, hloop]
  refine ⟨by rw [hmain], by rw [hmain]; exact failAux_attemptCount n 0, ?_, ?_⟩
  · rw [hmain]
    obtain ⟨m, rfl⟩ : ∃ m, n = m + 1 := ⟨n - 1, by omega⟩
    rw [failAux_sleepDurations m 0]
    simp [List.range_eq_range']
  · rw [hmain, specFailTrace, List.range_eq_range']
    exact failAux_eq_specFailTrace n 0 n (by omega)

/-- Witness for C1 at `n = 3` with a call that always raises: three
attempts, result `None`, sleeps of 1 then 2 seconds, trace
attempt 0, sleep 1, attempt 1, sleep 2, attempt 2. -/
theorem backoff_allFail_witness :
    (call_gemini_with_backoff (fun _ => Except.error "boom") 3).2 = none ∧
    attemptCount (call_gemini_with_backoff (fun _ => Except.error "boom") 3).1 = 3 ∧
    sleepDurations (call_gemini_with_backoff (fun _ => Except.error "boom") 3).1 =
      (List.range 2).map (fun i => 2 ^ i) ∧
    (call_gemini_with_backoff (fun _ => Except.error "boom") 3).1 = specFailTrace 3 :=
  backoff_allFail 3 (by decide) (fun _ => Except.error "boom")
    (fun _ => ⟨"boom", rfl⟩)

/-- If every attempt before index `s` raises and attempt `s` returns
`r`, then running the loop over `[a, ..., a+j-1]` with `a ≤ s < a+j`
(and `s` not the index of a doomed final slot, i.e. `s < n`) returns
`some r` after exactly `s - a + 1` attempts. -/
lemma backoffLoop_succeedsAt (call : Nat → Except String GeminiResponse)
    (s : Nat) (r : GeminiResponse)
    (herr : ∀ i, i < s → ∃ e, call i = Except.error e)
    (hok : call s = Except.ok r) :
    ∀ (j a : Nat) (n : Int), a ≤ s → s < a + j → (s : Int) < n →
      (backoffLoop call n (List.range' a j)).2 = some r ∧
      attemptCount (backoffLoop call n (List.range' a j)).1 = s - a + 1 := by
  intro j
  induction j with
  | zero => intro a n h1 h2 _; omega
  | succ j ih =>
    intro a n h1 h2 h3
    rcases Nat.eq_or_lt_of_le h1 with rfl | hlt
    · rw [List.range'_succ, backoffLoop_cons_ok call n a _ r hok]
      constructor
      · rfl
      · simp
    · obtain ⟨e, he⟩ := herr a hlt
      have hg : (a : Int) < n - 1 := by omega
      have hrec := ih (a + 1) n (by omega) (by omega) h3
      rw [List.range'_succ, backoffLoop_cons_error call n a _ e he, if_pos hg]
      refine ⟨hrec.1, ?_⟩
      simp only [attemptCount_cons_call, attemptCount_cons_sleep, hrec.2]
      omega

/-- C2: if the call raises on the first `k - 1` attempts and returns `r`
on attempt `k` (1-based), with `1 ≤ k ≤ max_retries = n`, then
`call_gemini_with_backoff` performs exactly `k` attempts and returns the
`k`-th response `r` unmodified — including when `r` is semantically
empty. -/
theorem backoff_succeeds_at_k (n k : Nat) (hk1 : 1 ≤ k) (hkn : k ≤ n)
    (call : Nat → Except String GeminiResponse) (r : GeminiResponse)
    (herr : ∀ i, i < k - 1 → ∃ e, call i = Except.error e)
    (hok : call (k - 1) = Except.ok r) :
    (call_gemini_with_backoff call n).2 = some r ∧
    attemptCount (call_gemini_with_backoff call n).1 = k := by
  have hrange : pythonRange (n : Int) = List.range' 0 n := by
    simp [pythonRange, List.range_eq_range']
  have h := backoffLoop_succeedsAt call (k - 1) r herr hok n 0 (n : Int)
    (by omega) (by omega) (by omega)
  rw [call_gemini_with_backoff, hrange]
  exact ⟨h.1, by rw [h.2]; omega⟩

/-- Witness for C2 at `n = 5`, `k = 3`: the call raises twice, then on
the third attempt returns a semantically empty response (empty text, no
candidates); the function returns exactly that response after exactly 3
attempts. -/
theorem backoff_succeeds_at_k_witness :
    (call_gemini_with_backoff
        (fun i => if i < 2 then Except.error "boom"
          else Except.ok ⟨"", []⟩) 5).2 = some ⟨"", []⟩ ∧
    attemptCount (call_gemini_with_backoff
        (fun i => if i < 2 then Except.error "boom"
          else Except.ok ⟨"", []⟩) 5).1 = 3 :=
  backoff_succeeds_at_k 5 3 (by decide) (by decide)
    (fun i => if i < 2 then Except.error "boom" else Except.ok ⟨"", []⟩)
    ⟨"", []⟩
    (fun i hi => ⟨"boom", by simp [show i < 2 by omega]⟩)
    (by simp)

/-- The body and condition of the list comprehension at src/app.py
lines 98-102: an attribution contributes `{'uri': attr.web.uri,
'title': attr.web.title}` exactly when `attr.web and attr.web.uri and
attr.web.title` is truthy; otherwise it is dropped. -/
def attrCitation (attr : GroundingAttribution) : Option Source :=
  match attr.web with
  | some w => if w.uri ≠ "" ∧ w.title ≠ "" then some ⟨w.uri, w.title⟩ else none
  | none => none

/-- The final value of the `sources` variable of `home` (src/app.py
lines 92-102): starts as `[]`; when `response.candidates` is non-empty,
`candidates[0].grounding_metadata` is present and its
`grounding_attributions` list is truthy (non-empty), it becomes the list
comprehension over the attributions. -/
def extract_sources (response : GeminiResponse) : List Source :=
  match response.candidates with
  | [] => []
  | candidate :: _ =>
    match candidate.grounding_metadata with
    | none => []
    | some gm =>
      if gm.grounding_attributions = [] then []
      else gm.grounding_attributions.filterMap attrCitation

/-- C3: for a response whose first candidate carries grounding metadata,
the sources list is exactly the attribution list filtered through
`attrCitation`, and an attribution yields a citation `{uri, title}` iff
its `web` record is present with non-empty `uri` and non-empty `title`
(the citation then being exactly those two fields); attributions missing
either field are dropped without affecting the rest of the response. -/
theorem citations_iff_fields_present (response : GeminiResponse)
    (c : Candidate) (rest : List Candidate) (gm : GroundingMetadata)
    (hc : response.candidates = c :: rest)
    (hg : c.grounding_metadata = some gm) :
    extract_sources response = gm.grounding_attributions.filterMap attrCitation ∧
    (∀ attr : GroundingAttribution,
      (∃ s, attrCitation attr = some s) ↔
        ∃ w, attr.web = some w ∧ w.uri ≠ "" ∧ w.title ≠ "") ∧
    (∀ (attr : GroundingAttribution) (s : Source),
      attrCitation attr = some s ↔
        ∃ w, attr.web = some w ∧ w.uri ≠ "" ∧ w.title ≠ "" ∧
          s = ⟨w.uri, w.title⟩) := by
  refine ⟨?_, ?_, ?_⟩
  · simp only [extract_sources, hc, hg]
    by_cases h : gm.grounding_attributions = [] <;> simp [h]
  · intro attr
    cases hw : attr.web with
    | none => simp [attrCitation, hw]
    | some w =>
      by_cases hu : w.uri = "" <;> by_cases ht : w.title = "" <;>
        simp [attrCitation, hw, hu, ht]
  · intro attr s
    cases hw : attr.web with
    | none => simp [attrCitation, hw]
    | some w =>
      by_cases hu : w.uri = "" <;> by_cases ht : w.title = "" <;>
        simp [attrCitation, hw, hu, ht] <;> tauto

/-- The process environment as far as `home` reads it: the
`GEMINI_API_KEY` variable, absent or set to a string. -/
structure Env where
  GEMINI_API_KEY : Option String
deriving Repr, DecidableEq

/-- `API_KEY = os.environ.get("GEMINI_API_KEY", "")` (src/app.py line 9):
the variable's value, defaulting to the empty string when absent. -/
def API_KEY (env : Env) : String := env.GEMINI_API_KEY.getD ""

/-- `system_prompt` (src/app.py line 62). -/
def system_prompt : String :=
  "You are a friendly, witty, and highly helpful assistant running on a new web service. Your task is to greet the user and provide a single, fascinating, and up-to-date piece of information about the world of technology or science, grounded by Google Search."

/-- `user_query` (src/app.py line 63). -/
def user_query : String :=
  "Give me one amazing fact about the current state of AI or space exploration."

/-- `flask.render_template_string` on the template strings occurring in
this program: none of them contains a Jinja directive, so Jinja
rendering is the identity.  (The client-initialization error page
interpolates the exception message into the template before rendering;
a message containing Jinja syntax would be interpreted — outside this
model.) -/
def render_template_string (s : String) : String := s

/-- The template of src/app.py lines 46-53 (missing `GEMINI_API_KEY`). -/
def apiKeyMissingHtml : String := "
            <div style=\"padding: 40px; text-align: center; font-family: sans-serif;\">
                <h1 style=\"color: #EF4444;\">API Key Missing</h1>
                <p>The <code>GEMINI_API_KEY</code> environment variable is not set.</p>
                <p>Please ensure you set the environment variable or, if deploying, that the platform is injecting it.</p>
                <p style=\"color: #6B7280; font-size: 14px;\">(The key is left blank in this file to be securely injected by the environment.)</p>
            </div>
        "

/-- The constant part of the client-initialization error template
(src/app.py line 59) that precedes the interpolated exception message. -/
def clientInitErrorHead : String :=
  "<h1 style=\x27color: #EF4444;\x27>Client Initialization Error</h1><p>"

/-- The f-string of src/app.py line 59: the exception message `e` is
interpolated directly into the page. -/
def clientInitErrorHtml (e : String) : String :=
  clientInitErrorHead ++ e ++ "</p>"

/-- The template of src/app.py lines 81-87 (backoff exhausted, `response
is None`): a fixed string mentioning no detail of the underlying errors. -/
def apiCallFailedHtml : String := "
            <div style=\"padding: 40px; text-align: center; font-family: sans-serif;\">
                <h1 style=\"color: #F59E0B;\">API Call Failed</h1>
                <p>Could not get a response from the Gemini API after multiple retries.</p>
                <p>Please check your network connection and API key validity.</p>
            </div>
            "

/-- One `<li>` of the sources list (the f-string at src/app.py
line 108), with `s['uri']` and `s['title']` interpolated verbatim. -/
def listItem (s : Source) : String :=
  "<li class=\x27text-sm text-gray-500\x27><a href=\x27" ++ s.uri ++
    "\x27 target=\x27_blank\x27 class=\x27hover:underline text-blue-500\x27>" ++
    s.title ++ "</a></li>"

/-- The constant part of the sources block (src/app.py lines 111-114)
before `{list_items}`. -/
def sourcesBlockA : String := "
            <div class=\"mt-8 pt-4 border-t border-gray-200\">
                <p class=\"text-xs font-semibold uppercase text-gray-400 mb-2\">Sources (Grounded by Google Search):</p>
                <ul class=\"list-disc list-inside space-y-1\">"

/-- The constant part of the sources block (src/app.py lines 114-116)
after `{list_items}`. -/
def sourcesBlockB : String := "</ul>
            </div>
        "

/-- The final value of the `html_sources` variable (src/app.py
lines 105-116): empty when `sources` is empty (Python `if sources:`),
otherwise the sources block around the joined `<li>` items. -/
def html_sources_of (sources : List Source) : String :=
  if sources = [] then ""
  else sourcesBlockA ++ String.join (sources.map listItem) ++ sourcesBlockB

/-- The part of the `html_template` f-string (src/app.py lines 119-139)
up to and including `<p class="mt-2 whitespace-pre-wrap">`, immediately
before `{generated_text}`.  The doubled braces of the Python f-string
denote literal braces in the CSS rule. -/
def htmlA : String := "
    <!DOCTYPE html>
    <html lang=\"en\">
    <head>
        <meta charset=\"UTF-8\">
        <meta name=\"viewport\" content=\"width=device-width, initial-scale=1.0\">
        <title>Gemini Hello World App</title>
        <script src=\"https://cdn.tailwindcss.com\"></script>
        <link href=\"https://fonts.googleapis.com/css2?family=Inter:wght@400;600;700&display=swap\" rel=\"stylesheet\">
        <style>
            body \x7b font-family: \x27Inter\x27, sans-serif; background-color: #f7fafc; \x7d
        </style>
    </head>
    <body class=\"p-8\">
        <div class=\"max-w-3xl mx-auto bg-white shadow-xl rounded-xl p-8 md:p-12 mt-10\">
            <h1 class=\"text-3xl font-bold text-gray-800 mb-6 flex items-center\">
                🤖 Gemini App Running on Doprax
            </h1>
            <div class=\"bg-blue-50 border-l-4 border-blue-400 text-blue-800 p-4 rounded-lg\">
                <p class=\"font-medium text-lg\">Response from Gemini:</p>
                <p class=\"mt-2 whitespace-pre-wrap\">"

/-- The part of the `html_template` f-string (src/app.py lines 139-141)
between `{generated_text}` and `{html_sources}`. -/
def htmlB : String := "</p>
            </div>
            "

/-- The part of the `html_template` f-string (src/app.py lines 141-148)
after `{html_sources}`. -/
def htmlC : String := "
            <div class=\"mt-10 text-center text-gray-400 text-sm\">
                <p>This application was deployed using Python 3.12 and Flask.</p>
            </div>
        </div>
    </body>
    </html>
    "

/-- The `html_template` f-string (src/app.py lines 119-148):
`generated_text` and `html_sources` are interpolated verbatim — no
escaping of any kind is applied. -/
def html_template (generated_text : String) (hs : String) : String :=
  htmlA ++ generated_text ++ htmlB ++ hs ++ htmlC

/-- HTML escaping as `markupsafe.escape` (what Flask/Jinja would apply
to interpolated values): replaces the five HTML-special characters by
entities.  `home` never applies this; it is defined here to state what
the spec asserts about escaping. -/
def escapeChar (c : Char) : String :=
  if c = '&' then "&amp;"
  else if c = '<' then "&lt;"
  else if c = '>' then "&gt;"
  else if c = '\x22' then "&#34;"
  else if c = '\x27' then "&#39;"
  else String.singleton c

/-- `markupsafe.escape` over a whole string. -/
def html_escape (s : String) : String := String.join (s.data.map escapeChar)

/-- Which of the four `return` statements of `home` produced the
response, with the data that return embeds. -/
inductive PageTag where
  | apiKeyMissing : PageTag
  | clientInitError (message : String) : PageTag
  | apiCallFailed : PageTag
  | success (generated_text : String) (sources : List Source) : PageTag
deriving Repr, DecidableEq

/-- The observable outcome of one request to `home`: the HTTP status
(Flask returns 200 for a handler returning a string), the response body,
which return statement produced it, and the side-effect trace. -/
structure HomeResult where
  status : Nat
  body : String
  page : PageTag
  events : List Event
deriving Repr, DecidableEq

/-- The route handler `home` (src/app.py lines 42-149).  `clientInit` is
the outcome of `genai.Client(api_key=API_KEY)` (line 57): `Except.error e`
models a raised exception with message `e`.  `call` is the behavior of
`client.models.generate_content` per attempt.  The handler checks the
key (line 44), constructs the client (line 57), runs the backoff call
with the Python default `max_retries = 5` (lines 72-77), and renders one
of the four pages. -/
def home (env : Env) (clientInit : Except String Unit)
    (call : Nat → Except String GeminiResponse) : HomeResult :=
  if API_KEY env = "" then
    { status := 200, body := render_template_string apiKeyMissingHtml,
      page := PageTag.apiKeyMissing, events := [] }
  else
    match clientInit with
    | Except.error e =>
      { status := 200, body := render_template_string (clientInitErrorHtml e),
        page := PageTag.clientInitError e, events := [Event.clientInit] }
    | Except.ok _ =>
      let result := call_gemini_with_backoff call 5
      match result.2 with
      | none =>
        { status := 200, body := render_template_string apiCallFailedHtml,
          page := PageTag.apiCallFailed, events := Event.clientInit :: result.1 }
      | some response =>
        let generated_text := response.text
        let sources := extract_sources response
        { status := 200,
          body := html_template generated_text (html_sources_of sources),
          page := PageTag.success generated_text sources,
          events := Event.clientInit :: result.1 }

/-- C6: when `GEMINI_API_KEY` is absent or empty, `home` short-circuits:
it returns the missing-credential page, performs zero call attempts, and
never constructs the `genai.Client` handle. -/
theorem missing_key_short_circuits (env : Env) (clientInit : Except String Unit)
    (call : Nat → Except String GeminiResponse)
    (h : env.GEMINI_API_KEY = none ∨ env.GEMINI_API_KEY = some "") :
    (home env clientInit call).page = PageTag.apiKeyMissing ∧
    (home env clientInit call).body = apiKeyMissingHtml ∧
    (home env clientInit call).events = [] ∧
    attemptCount (home env clientInit call).events = 0 ∧
    Event.clientInit ∉ (home env clientInit call).events := by
  have hk : API_KEY env = "" := by
    rcases h with h | h <;> simp [API_KEY, h]
  simp [home, hk, render_template_string]

/-- Witness for C6: with the variable absent, a client constructor that
would succeed and a call that would answer, the handler still renders
the missing-credential page with an empty event trace. -/
theorem missing_key_short_circuits_witness :
    (home ⟨none⟩ (Except.ok ()) (fun _ => Except.ok ⟨"hi", []⟩)).page =
      PageTag.apiKeyMissing ∧
    (home ⟨none⟩ (Except.ok ()) (fun _ => Except.ok ⟨"hi", []⟩)).body =
      apiKeyMissingHtml ∧
    (home ⟨none⟩ (Except.ok ()) (fun _ => Except.ok ⟨"hi", []⟩)).events = [] ∧
    attemptCount (home ⟨none⟩ (Except.ok ()) (fun _ => Except.ok ⟨"hi", []⟩)).events = 0 ∧
    Event.clientInit ∉ (home ⟨none⟩ (Except.ok ()) (fun _ => Except.ok ⟨"hi", []⟩)).events :=
  missing_key_short_circuits ⟨none⟩ (Except.ok ()) (fun _ => Except.ok ⟨"hi", []⟩)
    (Or.inl rfl)

/-- C7: every request to `home` — in particular every error path:
missing credential, client-initialization error, exhausted retries —
ends in a normal HTTP 200 response carrying HTML, and on the
exhausted-retries path the body is the fixed generic failure page,
which carries no detail of the underlying errors. -/
theorem error_paths_http_200 (env : Env) (clientInit : Except String Unit)
    (call : Nat → Except String GeminiResponse) :
    (home env clientInit call).status = 200 ∧
    ((home env clientInit call).page = PageTag.apiCallFailed →
      (home env clientInit call).body = apiCallFailedHtml) := by
  by_cases hk : API_KEY env = ""
  · simp [home, hk, render_template_string]
  · cases clientInit with
    | error e => simp [home, hk, render_template_string]
    | ok u =>
      cases hres : (call_gemini_with_backoff call 5).2 with
      | none => simp [home, hk, hres, render_template_string]
      | some r => simp [home, hk, hres, render_template_string]

/-- Witness for C7 on the exhausted-retries path: a permanently failing
call still yields status 200 and the fixed generic failure page. -/
theorem error_paths_http_200_witness :
    (home ⟨some "key"⟩ (Except.ok ()) (fun _ => Except.error "boom")).status = 200 ∧
    (home ⟨some "key"⟩ (Except.ok ()) (fun _ => Except.error "boom")).body =
      apiCallFailedHtml :=
  ⟨(error_paths_http_200 ⟨some "key"⟩ (Except.ok ()) (fun _ => Except.error "boom")).1,
    (error_paths_http_200 ⟨some "key"⟩ (Except.ok ()) (fun _ => Except.error "boom")).2
      (by rfl)⟩

/-- C8: when constructing the client raises with message `e`, `home`
catches it and returns a page whose body is the error heading followed
by `e` itself — the message reaches the user verbatim — with no call
attempt made. -/
theorem client_init_error_displayed (env : Env) (e : String)
    (call : Nat → Except String GeminiResponse)
    (hkey : API_KEY env ≠ "") :
    (home env (Except.error e) call).status = 200 ∧
    (home env (Except.error e) call).body = clientInitErrorHead ++ e ++ "</p>" ∧
    (home env (Except.error e) call).page = PageTag.clientInitError e ∧
    (home env (Except.error e) call).events = [Event.clientInit] ∧
    attemptCount (home env (Except.error e) call).events = 0 := by
  simp [home, hkey, render_template_string, clientInitErrorHtml]

/-- Witness for C8 at a concrete key and message. -/
theorem client_init_error_displayed_witness :
    (home ⟨some "key"⟩ (Except.error "no credentials file")
        (fun _ => Except.ok ⟨"hi", []⟩)).status = 200 ∧
    (home ⟨some "key"⟩ (Except.error "no credentials file")
        (fun _ => Except.ok ⟨"hi", []⟩)).body =
      clientInitErrorHead ++ "no credentials file" ++ "</p>" ∧
    (home ⟨some "key"⟩ (Except.error "no credentials file")
        (fun _ => Except.ok ⟨"hi", []⟩)).page =
      PageTag.clientInitError "no credentials file" ∧
    (home ⟨some "key"⟩ (Except.error "no credentials file")
        (fun _ => Except.ok ⟨"hi", []⟩)).events = [Event.clientInit] ∧
    attemptCount (home ⟨some "key"⟩ (Except.error "no credentials file")
        (fun _ => Except.ok ⟨"hi", []⟩)).events = 0 :=
  client_init_error_displayed ⟨some "key"⟩ "no credentials file"
    (fun _ => Except.ok ⟨"hi", []⟩) (by decide)

/-- C4 counterexample: a first call returning a response with empty
answer text still produces the success page — its embedded answer text
is the empty string, so the handler does not enforce the non-empty-text
invariant the spec states. -/
theorem success_page_empty_text_counterexample :
    (home ⟨some "key"⟩ (Except.ok ())
        (fun _ => Except.ok ⟨"", []⟩)).page = PageTag.success "" [] ∧
    (home ⟨some "key"⟩ (Except.ok ())
        (fun _ => Except.ok ⟨"", []⟩)).body = html_template "" "" := by
  constructor <;> rfl

/-- C4 amended: `home` builds the success page from any response the
backoff call returns, embedding exactly that response's `text` — which
may be empty; no non-emptiness check is performed. -/
theorem success_page_embeds_returned_text (env : Env)
    (call : Nat → Except String GeminiResponse) (r : GeminiResponse)
    (hkey : API_KEY env ≠ "")
    (hres : (call_gemini_with_backoff call 5).2 = some r) :
    (home env (Except.ok ()) call).page =
      PageTag.success r.text (extract_sources r) ∧
    (home env (Except.ok ()) call).body =
      html_template r.text (html_sources_of (extract_sources r)) := by
  simp [home, hkey, hres]

/-- Witness for the amended C4 at the empty response. -/
theorem success_page_embeds_returned_text_witness :
    (home ⟨some "key"⟩ (Except.ok ()) (fun _ => Except.ok ⟨"", []⟩)).page =
      PageTag.success (GeminiResponse.text ⟨"", []⟩)
        (extract_sources ⟨"", []⟩) ∧
    (home ⟨some "key"⟩ (Except.ok ()) (fun _ => Except.ok ⟨"", []⟩)).body =
      html_template (GeminiResponse.text ⟨"", []⟩)
        (html_sources_of (extract_sources ⟨"", []⟩)) :=
  success_page_embeds_returned_text ⟨some "key"⟩ (fun _ => Except.ok ⟨"", []⟩)
    ⟨"", []⟩ (by decide) (by rfl)

set_option maxRecDepth 4096 in
/-- C5 counterexample: for the answer text `<b>bold</b>` the success
page body is not the template around the HTML-escaped text — the markup
reaches the page unescaped (and the page is returned directly, not via
any escaping renderer). -/
theorem answer_text_not_escaped_counterexample :
    (home ⟨some "key"⟩ (Except.ok ())
        (fun _ => Except.ok ⟨"<b>bold</b>", []⟩)).body ≠
      htmlA ++ html_escape "<b>bold</b>" ++ htmlB ++ html_sources_of [] ++ htmlC := by
  decide

/-- C5 amended: the generated answer text is embedded verbatim —
unescaped — between the pre-wrapped block's opening tag and `</p>`; no
HTML escaping is applied to it on the success path. -/
theorem answer_text_embedded_verbatim (env : Env)
    (call : Nat → Except String GeminiResponse) (r : GeminiResponse)
    (hkey : API_KEY env ≠ "")
    (hres : (call_gemini_with_backoff call 5).2 = some r) :
    (home env (Except.ok ()) call).body =
      htmlA ++ r.text ++ htmlB ++ html_sources_of (extract_sources r) ++ htmlC := by
  simp [home, hkey, hres, html_template]

/-- Witness for the amended C5 at the `<b>bold</b>` response. -/
theorem answer_text_embedded_verbatim_witness :
    (home ⟨some "key"⟩ (Except.ok ())
        (fun _ => Except.ok ⟨"<b>bold</b>", []⟩)).body =
      htmlA ++ GeminiResponse.text ⟨"<b>bold</b>", []⟩ ++ htmlB ++
        html_sources_of (extract_sources ⟨"<b>bold</b>", []⟩) ++ htmlC :=
  answer_text_embedded_verbatim ⟨some "key"⟩
    (fun _ => Except.ok ⟨"<b>bold</b>", []⟩) ⟨"<b>bold</b>", []⟩
    (by decide) (by rfl)

/-- Witness for C3 on a concrete response whose attribution list holds a
well-formed attribution, one with an empty URI, and one with no `web`
record: only the well-formed one becomes a citation. -/
theorem citations_iff_fields_present_witness :
    extract_sources
        ⟨"Fact X",
          [⟨some ⟨[⟨some ⟨"https://a.example", "A"⟩⟩, ⟨some ⟨"", "B"⟩⟩, ⟨none⟩]⟩⟩]⟩ =
      [⟨"https://a.example", "A"⟩] ∧
    ((∃ s, attrCitation ⟨some ⟨"https://a.example", "A"⟩⟩ = some s) ↔
      ∃ w, GroundingAttribution.web ⟨some ⟨"https://a.example", "A"⟩⟩ = some w ∧
        w.uri ≠ "" ∧ w.title ≠ "") ∧
    (attrCitation ⟨some ⟨"", "B"⟩⟩ = some ⟨"", "B"⟩ ↔
      ∃ w, GroundingAttribution.web ⟨some ⟨"", "B"⟩⟩ = some w ∧
        w.uri ≠ "" ∧ w.title ≠ "" ∧ (⟨"", "B"⟩ : Source) = ⟨w.uri, w.title⟩) := by
  have h := citations_iff_fields_present
    ⟨"Fact X",
      [⟨some ⟨[⟨some ⟨"https://a.example", "A"⟩⟩, ⟨some ⟨"", "B"⟩⟩, ⟨none⟩]⟩⟩]⟩
    ⟨some ⟨[⟨some ⟨"https://a.example", "A"⟩⟩, ⟨some ⟨"", "B"⟩⟩, ⟨none⟩]⟩⟩ []
    ⟨[⟨some ⟨"https://a.example", "A"⟩⟩, ⟨some ⟨"", "B"⟩⟩, ⟨none⟩]⟩ rfl rfl
  exact ⟨by rw [h.1]; rfl, h.2.1 _, h.2.2 _ _⟩
